import Mathlib

/-!
Verification of the NDVI vegetation-monitoring pipeline (`src/app.py`).

Index values are modelled as rationals (`ℚ`); a raster is a function from
pixel positions (`Nat`) to `Option ℚ`, where `none` is the no-data sentinel.
The threshold masks (app.py lines 58–61), the nested-conditional point
classifier `classify_point` (lines 117–131), and the pipeline composition
are transcribed from the source.  Behaviour of the Earth Engine library
calls that the source delegates to (`normalizedDifference`, `median`,
collection filters, `sample`) is not present in the repository; those
primitives are modelled from the specification and marked as such in their
doc comments.
-/

namespace NDVI

/-- The four density classes of the classifier (spec §3). -/
inductive DensityClass
  | Dense
  | Moderate
  | Sparse
  | BuiltUp
deriving DecidableEq, Repr

/-- Per-pixel semantics of `dense = ndvi_image.gt(0.6)` (app.py line 58). -/
def dense (v : ℚ) : Bool := v > 0.6

/-- Per-pixel semantics of
`moderate = ndvi_image.gt(0.4).And(ndvi_image.lte(0.6))` (app.py line 59). -/
def moderate (v : ℚ) : Bool := v > 0.4 && v ≤ 0.6

/-- Per-pixel semantics of
`sparse = ndvi_image.gt(0.2).And(ndvi_image.lte(0.4))` (app.py line 60). -/
def sparse (v : ℚ) : Bool := v > 0.2 && v ≤ 0.4

/-- Per-pixel semantics of `nonveg = ndvi_image.lte(0.2)` (app.py line 61). -/
def nonveg (v : ℚ) : Bool := v ≤ 0.2

/-- The mask that the raster-mask logic evaluates for each class. -/
def maskAssigns (v : ℚ) : DensityClass → Bool
  | .Dense => dense v
  | .Moderate => moderate v
  | .Sparse => sparse v
  | .BuiltUp => nonveg v

/-- Value-level transcription of the nested `ee.Algorithms.If` ladder in
`classify_point` (app.py lines 121–130): `v.gt(0.6) → "Dense"`, else
`v.gt(0.4) → "Moderate"`, else `v.gt(0.2) → "Sparse"`, else `"Built-up"`. -/
def classify_point (v : ℚ) : String :=
  if v > 0.6 then "Dense"
  else if v > 0.4 then "Moderate"
  else if v > 0.2 then "Sparse"
  else "Built-up"

/-- The display name each class carries in `classify_point`. -/
def className : DensityClass → String
  | .Dense => "Dense"
  | .Moderate => "Moderate"
  | .Sparse => "Sparse"
  | .BuiltUp => "Built-up"

/-- C1: for every index value `v` that is not no-data, the four raster masks
`dense`, `moderate`, `sparse`, `nonveg` (app.py lines 58–61) are pairwise
disjoint and jointly cover `v`: the classifier partitions the full value
domain with no gaps or overlaps. -/
theorem masks_partition (v : ℚ) :
    (dense v || moderate v || sparse v || nonveg v) = true ∧
    ¬(dense v = true ∧ moderate v = true) ∧
    ¬(dense v = true ∧ sparse v = true) ∧
    ¬(dense v = true ∧ nonveg v = true) ∧
    ¬(moderate v = true ∧ sparse v = true) ∧
    ¬(moderate v = true ∧ nonveg v = true) ∧
    ¬(sparse v = true ∧ nonveg v = true) := by
  simp only [dense, moderate, sparse, nonveg, Bool.or_eq_true, Bool.and_eq_true,
    decide_eq_true_eq]
  constructor
  · rcases le_or_lt v 0.2 with h | h
    · exact Or.inr h
    · rcases le_or_lt v 0.4 with h' | h'
      · exact Or.inl (Or.inr ⟨h, h'⟩)
      · rcases le_or_lt v 0.6 with h'' | h''
        · exact Or.inl (Or.inl (Or.inr ⟨h', h''⟩))
        · exact Or.inl (Or.inl (Or.inl h''))
  · refine ⟨?_, ?_, ?_, ?_, ?_, ?_⟩ <;> rintro ⟨h1, h2⟩ <;>
      first
        | linarith [h1, h2.1, h2.2]
        | linarith [h1.1, h1.2, h2.1, h2.2]
        | linarith [h1.1, h1.2, h2]
        | linarith [h1, h2]

/-- C2 counterexample: at the boundary value 0.4 the code assigns Sparse, not
Moderate — `classify_point 0.4 = "Sparse"` and the `moderate` mask is false
while the `sparse` mask is true, refuting `classification(0.4) = Moderate`. -/
theorem boundary_0_4_is_sparse :
    classify_point 0.4 ≠ "Moderate" ∧ classify_point 0.4 = "Sparse" ∧
    moderate 0.4 = false ∧ sparse 0.4 = true := by
  refine ⟨?_, ?_, ?_, ?_⟩ <;> (norm_num [classify_point, moderate, sparse]; try decide)

/-- C2 (amended): boundary behaviour of the classifier as the code fixes it —
the lower bound of each band is exclusive (`gt`), the upper bound inclusive
(`lte`): classification(0.6) = Moderate, classification(0.4) = Sparse,
classification(0.4+ε) = Moderate and classification(0.2+ε) = Sparse for
0 < ε ≤ 0.2, and classification(0.2) = Built-up. -/
theorem boundary_exactness :
    classify_point 0.6 = "Moderate" ∧
    classify_point 0.4 = "Sparse" ∧
    classify_point 0.2 = "Built-up" ∧
    (∀ ε : ℚ, 0 < ε → ε ≤ 0.2 → classify_point (0.4 + ε) = "Moderate") ∧
    (∀ ε : ℚ, 0 < ε → ε ≤ 0.2 → classify_point (0.2 + ε) = "Sparse") := by
  refine ⟨?_, ?_, ?_, ?_, ?_⟩
  · norm_num [classify_point]
  · norm_num [classify_point]
  · norm_num [classify_point]
  · intro ε h1 h2
    have hle : ¬ (0.4 + ε > (0.6 : ℚ)) := by push_neg; linarith
    have hgt : 0.4 + ε > (0.4 : ℚ) := by linarith
    simp [classify_point, hle, hgt]
  · intro ε h1 h2
    have h6 : ¬ (0.2 + ε > (0.6 : ℚ)) := by push_neg; linarith
    have h4 : ¬ (0.2 + ε > (0.4 : ℚ)) := by push_neg; linarith
    have h2' : 0.2 + ε > (0.2 : ℚ) := by linarith
    simp [classify_point, h6, h4, h2']

/-- C2 witness: the amended boundary claim applied at the concrete offset
ε = 0.1: classification(0.5) = Moderate and classification(0.3) = Sparse. -/
theorem boundary_exactness_witness :
    classify_point (0.4 + 0.1) = "Moderate" ∧
    classify_point (0.2 + 0.1) = "Sparse" :=
  ⟨boundary_exactness.2.2.2.1 0.1 (by norm_num) (by norm_num),
   boundary_exactness.2.2.2.2 0.1 (by norm_num) (by norm_num)⟩

/-- C3: for every defined index value `v` and every class `c`, the raster-mask
logic (app.py lines 58–61) assigns `v` to `c` exactly when the nested
conditional `classify_point` (lines 117–131) labels `v` with `c`'s name:
the two classification embeddings agree as functions of `v`. -/
theorem masks_agree_with_classify_point (v : ℚ) (c : DensityClass) :
    maskAssigns v c = true ↔ classify_point v = className c := by
  cases c <;>
    simp only [maskAssigns, className, dense, moderate, sparse, nonveg,
      classify_point, Bool.and_eq_true, decide_eq_true_eq]
  · constructor
    · intro h; simp [h]
    · intro h
      by_contra hgt
      push_neg at hgt
      simp only [if_neg (not_lt.mpr hgt)] at h
      split_ifs at h <;> simp_all
  · constructor
    · rintro ⟨h1, h2⟩
      rw [if_neg (by push_neg; exact h2), if_pos h1]
    · intro h
      split_ifs at h with hd hm <;> simp_all
  · constructor
    · rintro ⟨h1, h2⟩
      have hd : ¬ v > (0.6 : ℚ) := by push_neg; linarith
      have hm : ¬ v > (0.4 : ℚ) := by push_neg; exact h2
      rw [if_neg hd, if_neg hm, if_pos h1]
    · intro h
      split_ifs at h with hd hm hs <;> simp_all
  · constructor
    · intro h1
      have hd : ¬ v > (0.6 : ℚ) := by push_neg; linarith
      have hm : ¬ v > (0.4 : ℚ) := by push_neg; linarith
      have hs : ¬ v > (0.2 : ℚ) := by push_neg; exact h1
      rw [if_neg hd, if_neg hm, if_neg hs]
    · intro h
      split_ifs at h with hd hm hs <;> simp_all

/-- A satellite scene (spec §3): a footprint (the pixel positions it covers),
an acquisition timestamp, a cloud-cover percentage (`CLOUDY_PIXEL_PERCENTAGE`),
and the two spectral bands `B8` (near-infrared, bandA) and `B4` (red, bandB)
as partial rasters (`none` = masked / no-data). -/
structure Scene where
  footprint : List Nat
  acq : ℤ
  cloudy : ℚ
  b8 : Nat → Option ℚ
  b4 : Nat → Option ℚ

/-- A region geometry, as the set of pixel positions it contains. -/
def Region : Type := Nat → Bool

/-- Modelled from the spec: `ee.ImageCollection.filterBounds` keeps the scenes
whose footprint intersects the region (the library implementation is not in
the repository). -/
def filterBounds (region : Region) (scenes : List Scene) : List Scene :=
  scenes.filter (fun s => s.footprint.any region)

/-- Modelled from the spec: `ee.ImageCollection.filterDate` keeps the scenes
whose acquisition timestamp lies in the half-open range `[start, stop)`
(spec §4.2: "an inclusive date range `[start, end)`"). -/
def filterDate (start stop : ℤ) (scenes : List Scene) : List Scene :=
  scenes.filter (fun s => start ≤ s.acq && s.acq < stop)

/-- Modelled from the spec: `ee.Filter.lt("CLOUDY_PIXEL_PERCENTAGE", t)` keeps
the scenes whose cloud-cover metadata is strictly less than the threshold. -/
def filterCloudLt (t : ℚ) (scenes : List Scene) : List Scene :=
  scenes.filter (fun s => s.cloudy < t)

/-- The Scene Collector pipeline of app.py lines 39–44:
`collection.filterBounds(karnataka).filterDate(start, stop)
.filter(ee.Filter.lt("CLOUDY_PIXEL_PERCENTAGE", maxCloud))`. -/
def collection (src : List Scene) (region : Region) (start stop : ℤ)
    (maxCloud : ℚ) : List Scene :=
  filterCloudLt maxCloud (filterDate start stop (filterBounds region src))

/-- Modelled from the spec: `ee.Image.normalizedDifference(["B8","B4"])`
computes `(bandA - bandB) / (bandA + bandB)` per pixel, mapping the
degenerate case `bandA + bandB == 0` — and any masked input — to no-data
rather than raising a division error (spec §4.3). -/
def normalizedDifference (a b : Option ℚ) : Option ℚ :=
  match a, b with
  | some x, some y => if x + y = 0 then none else some ((x - y) / (x + y))
  | _, _ => none

/-- The NDVI band added by `add_ndvi` (app.py lines 49–51), evaluated at a
pixel: `image.normalizedDifference(["B8", "B4"])`. -/
def add_ndvi (s : Scene) (p : Nat) : Option ℚ :=
  normalizedDifference (s.b8 p) (s.b4 p)

/-- Modelled from the spec: the pixel-wise `median()` reducer over the defined
values — the middle element of the sorted list for an odd count, the mean of
the two middle elements for an even count, and no-data for an empty list. -/
def median (xs : List ℚ) : Option ℚ :=
  match xs with
  | [] => none
  | _ :: _ =>
    let s := List.insertionSort (· ≤ ·) xs
    let n := s.length
    if n % 2 = 1 then some (s.getD (n / 2) 0)
    else some ((s.getD (n / 2 - 1) 0 + s.getD (n / 2) 0) / 2)

/-- The defined (non-no-data) per-scene NDVI values at a pixel. -/
def definedVals (scenes : List Scene) (p : Nat) : List ℚ :=
  (scenes.map (fun s => add_ndvi s p)).filterMap id

/-- The composite raster of app.py line 53:
`collection.map(add_ndvi).select("NDVI").median().clip(karnataka)` —
per-pixel median of the defined per-scene NDVI values, clipped to the
region (pixels outside become no-data). -/
def ndvi_image (scenes : List Scene) (region : Region) (p : Nat) : Option ℚ :=
  if region p then median (definedVals scenes p) else none

/-- End-to-end scenario 2, first scene: bands chosen so the NDVI at pixel 0
is (0.75 − 0.25) / (0.75 + 0.25) = 0.5. -/
def sceneA : Scene := ⟨[0], 10, 5, fun _ => some 0.75, fun _ => some 0.25⟩

/-- End-to-end scenario 2, second scene: bands chosen so the NDVI at pixel 0
is (0.85 − 0.15) / (0.85 + 0.15) = 0.7. -/
def sceneB : Scene := ⟨[0], 20, 5, fun _ => some 0.85, fun _ => some 0.15⟩

/-- A scene whose bands are masked everywhere: every pixel of its NDVI is
no-data. -/
def maskedScene : Scene := ⟨[0], 30, 5, fun _ => none, fun _ => none⟩

/-- C4: the composite raster value at a pixel inside the region is the median
of the defined per-scene NDVI values there; a pixel with zero defined values
across all scenes stays no-data; and concretely, two scenes with NDVI values
0.5 and 0.7 at the same pixel composite to 0.6, classified Moderate. -/
theorem composite_is_median (scenes : List Scene) (region : Region) (p : Nat)
    (hin : region p = true) :
    ndvi_image scenes region p = median (definedVals scenes p) ∧
    (definedVals scenes p = [] → ndvi_image scenes region p = none) ∧
    ndvi_image [sceneA, sceneB] (fun _ => true) 0 = some 0.6 ∧
    classify_point 0.6 = "Moderate" := by
  refine ⟨by simp [ndvi_image, hin], ?_, ?_, by norm_num [classify_point]⟩
  · intro hempty
    simp [ndvi_image, hin, hempty, median]
  · norm_num [ndvi_image, definedVals, add_ndvi, normalizedDifference,
      sceneA, sceneB, median, List.insertionSort, List.orderedInsert,
      List.filterMap_cons, id_eq]

/-- C4 witness: the composite theorem applied at the empty scene list and
pixel 0 of an all-inclusive region — no scenes means no defined values,
so the pixel is no-data. -/
theorem composite_is_median_witness :
    ndvi_image [] (fun _ => true) 0 = median (definedVals [] 0) ∧
    ndvi_image [] (fun _ => true) 0 = none :=
  have h := composite_is_median [] (fun _ => true) 0 rfl
  ⟨h.1, h.2.1 rfl⟩

/-- C5: a pixel where `bandA + bandB = 0` is no-data in the per-scene NDVI
(`normalizedDifference` maps the degenerate denominator to no-data instead
of raising a division error), and that scene contributes nothing to the
defined-value list the median aggregates at that pixel. -/
theorem degenerate_denominator_nodata (s : Scene) (rest : List Scene) (p : Nat)
    (a b : ℚ) (h8 : s.b8 p = some a) (h4 : s.b4 p = some b) (hab : a + b = 0) :
    add_ndvi s p = none ∧ definedVals (s :: rest) p = definedVals rest p := by
  have hnone : add_ndvi s p = none := by
    simp [add_ndvi, normalizedDifference, h8, h4, hab]
  exact ⟨hnone, by simp [definedVals, List.filterMap_cons, hnone]⟩

/-- C5 witness: a concrete scene with bands 0.3 and −0.3 at pixel 0 — the
denominator is zero, the NDVI is no-data, and the scene drops out of the
aggregation list. -/
theorem degenerate_denominator_nodata_witness :
    add_ndvi ⟨[0], 0, 0, fun _ => some 0.3, fun _ => some (-0.3)⟩ 0 = none ∧
    definedVals [⟨[0], 0, 0, fun _ => some 0.3, fun _ => some (-0.3)⟩] 0 =
      definedVals [] 0 :=
  degenerate_denominator_nodata _ [] 0 0.3 (-0.3) rfl rfl (by norm_num)

/-- The error taxonomy of the compositor (spec §7). -/
inductive CompositeError
  | EmptyCompositeError
deriving DecidableEq, Repr

/-- Modelled from the spec: the Index Compositor fails with
`EmptyCompositeError` when the filtered scene set is empty (spec §4.3); the
source surfaces this only as a downstream raster-compositing failure of the
imagery service (spec §9), so the error path is not in `src/`.  A non-empty
scene set composites to the `ndvi_image` raster. -/
def compositeChecked (scenes : List Scene) (region : Region) :
    Except CompositeError (Nat → Option ℚ) :=
  match scenes with
  | [] => .error .EmptyCompositeError
  | s :: rest => .ok (ndvi_image (s :: rest) region)

/-- C6: an empty scene set makes the compositor fail with
`EmptyCompositeError`; every non-empty scene set yields a successful raster;
and a non-empty set whose pixels are all no-data succeeds with a no-data
raster — distinguishable from the empty-input failure. -/
theorem empty_composite_error (region : Region) :
    compositeChecked [] region = .error .EmptyCompositeError ∧
    (∀ s rest, compositeChecked (s :: rest) region =
      .ok (ndvi_image (s :: rest) region)) ∧
    compositeChecked [maskedScene] region ≠ .error .EmptyCompositeError ∧
    ndvi_image [maskedScene] (fun _ => true) 0 = none := by
  refine ⟨rfl, fun s rest => rfl, ?_, ?_⟩
  · intro h
    simp [compositeChecked] at h
  · simp [ndvi_image, definedVals, add_ndvi, normalizedDifference, maskedScene,
      median]

/-- C6 witness: the compositor theorem applied at a concrete all-inclusive
region — the empty scene set errors while the all-masked singleton scene set
composites to a no-data raster. -/
theorem empty_composite_error_witness :
    compositeChecked [] (fun _ => true) = .error .EmptyCompositeError ∧
    ndvi_image [maskedScene] (fun _ => true) 0 = none :=
  have h := empty_composite_error (fun _ => true)
  ⟨h.1, h.2.2.2⟩

/-- An administrative-boundary feature of `FAO/GAUL/2015/level1`: a name
attribute (`ADM1_NAME`) and its polygon geometry (abstracted to an id). -/
structure AdminFeature where
  name : String
  geom : Nat
deriving DecidableEq, Repr

/-- The Region Filter of app.py lines 33–34:
`states.filter(ee.Filter.eq("ADM1_NAME", n))` — keeps every feature whose
name attribute equals `n` (case-sensitive exact match). -/
def regionFilter (states : List AdminFeature) (n : String) : List AdminFeature :=
  states.filter (fun f => f.name == n)

/-- A two-state boundary dataset used as a concrete counterexample input. -/
def gaulStates : List AdminFeature := [⟨"Karnataka", 0⟩, ⟨"Kerala", 1⟩]

/-- C7 counterexample: the Region Filter never fails with `RegionNotFound` —
the name "Nonexistent" yields the empty collection (the pipeline silently
proceeds with an empty area), and an ambiguous name yields both matching
features rather than an error. -/
theorem region_filter_never_fails :
    regionFilter gaulStates "Nonexistent" = [] ∧
    regionFilter [⟨"Karnataka", 0⟩, ⟨"Karnataka", 1⟩] "Karnataka" =
      [⟨"Karnataka", 0⟩, ⟨"Karnataka", 1⟩] := by
  constructor <;> rfl

/-- C7 (amended): the Region Filter returns exactly the features whose name
attribute equals the input under case-sensitive exact match — zero matches
give an empty collection and multiple matches are all kept, with no
`RegionNotFound` error raised in either case. -/
theorem region_filter_exact_match (states : List AdminFeature) (n : String)
    (f : AdminFeature) :
    f ∈ regionFilter states n ↔ f ∈ states ∧ f.name = n := by
  simp [regionFilter, List.mem_filter]

/-- C8: the Scene Collector (app.py lines 39–44) returns exactly the scenes
whose footprint intersects the region, whose acquisition timestamp lies in
the half-open range `[start, stop)`, and whose cloud-cover metadata is
strictly below the threshold; a scene failing any one predicate is excluded.
It is a pure function of the source collection (no side effects). -/
theorem collection_filters (src : List Scene) (region : Region)
    (start stop : ℤ) (maxCloud : ℚ) (s : Scene) :
    s ∈ collection src region start stop maxCloud ↔
      s ∈ src ∧ s.footprint.any region = true ∧
      (start ≤ s.acq ∧ s.acq < stop) ∧ s.cloudy < maxCloud := by
  simp only [collection, filterCloudLt, filterDate, filterBounds,
    List.mem_filter, Bool.and_eq_true, decide_eq_true_eq]
  tauto

/-- Modelled from the spec: `ndvi_image.sample(region, scale, numPixels,
geometries=True)` (app.py lines 109–114) — draws up to `n` point locations
within the region (the randomly drawn candidate locations are abstracted as
the list `draws`), attaches the raster's value at each location, and
excludes every point landing on a no-data pixel, so the returned count may
be less than `n`. -/
def samplePoints (img : Nat → Option ℚ) (region : Region) (draws : List Nat)
    (n : Nat) : List (Nat × ℚ) :=
  ((draws.filter region).take n).filterMap
    (fun p => (img p).map (fun v => (p, v)))

/-- C9: the Point Sampler returns at most `n` sample points; every returned
point lies in the region and carries the composite raster's defined value at
its location (no-data pixels are excluded); the actual returned count is the
length of the returned collection, observable to the caller. -/
theorem sample_points_spec (img : Nat → Option ℚ) (region : Region)
    (draws : List Nat) (n : Nat) :
    (samplePoints img region draws n).length ≤ n ∧
    ∀ p v, (p, v) ∈ samplePoints img region draws n →
      region p = true ∧ img p = some v := by
  constructor
  · calc (samplePoints img region draws n).length
        ≤ ((draws.filter region).take n).length :=
          List.length_filterMap_le _ _
      _ ≤ n := List.length_take_le _ _
  · intro p v hmem
    rw [samplePoints, List.mem_filterMap] at hmem
    obtain ⟨q, hq, hmap⟩ := hmem
    rw [Option.map_eq_some'] at hmap
    obtain ⟨w, hw, hpair⟩ := hmap
    obtain ⟨rfl, rfl⟩ := Prod.mk.injEq .. ▸ hpair
    have hq' : q ∈ draws.filter region := List.mem_of_mem_take hq
    exact ⟨(List.mem_filter.mp hq').2, hw⟩

/-- A one-pixel raster, defined only at location 3 with value 0.5. -/
def imgOnePixel : Nat → Option ℚ := fun p => if p = 3 then some 0.5 else none

/-- C9 witness: the sampler theorem applied to a concrete raster defined only
at location 3 — drawing locations 3 and 4 with `n = 2` returns the single
point (3, 0.5), which lies in the region and carries the raster's value. -/
theorem sample_points_spec_witness :
    (fun _ => true : Region) 3 = true ∧ imgOnePixel 3 = some 0.5 :=
  (sample_points_spec imgOnePixel (fun _ => true) [3, 4] 2).2 3 0.5
    (by norm_num [samplePoints, imgOnePixel])

/-- A feature property value: Earth Engine properties carry numbers (the
sampled NDVI) and strings (the class label). -/
inductive PropVal
  | num (q : ℚ)
  | str (s : String)
deriving DecidableEq, Repr

/-- A sampled point feature: a point geometry (abstracted to a location id)
and a property dictionary. -/
structure Feature where
  geom : Nat
  props : List (String × PropVal)
deriving DecidableEq, Repr

/-- `f.get(k)`: the value of property `k` (first binding wins). -/
def getProp (f : Feature) (k : String) : Option PropVal :=
  (f.props.find? (fun kv => kv.1 == k)).map Prod.snd

/-- `f.set(k, v)`: the feature with property `k` overridden to `v`; the
geometry and all other properties are untouched. -/
def setProp (f : Feature) (k : String) (v : PropVal) : Feature :=
  { f with props := (k, v) :: f.props }

/-- Feature-level transcription of `classify_point` (app.py lines 117–131):
read `v = ee.Number(f.get("NDVI"))` and return
`f.set("Class", <nested-If label of v>)`.  A feature without a numeric
`NDVI` property makes the Earth Engine computation error, modelled as
`none`. -/
def classify_point_feature (f : Feature) : Option Feature :=
  match getProp f "NDVI" with
  | some (.num v) => some (setProp f "Class" (.str (classify_point v)))
  | _ => none

/-- Reading any property other than the one just set is unchanged. -/
theorem getProp_setProp_ne (f : Feature) (k k' : String) (v : PropVal)
    (h : k' ≠ k) : getProp (setProp f k v) k' = getProp f k' := by
  simp only [getProp, setProp]
  rw [List.find?_cons_of_neg]
  simp [Ne.symm h]

/-- C10: `classify_point` returns a feature differing from its input only in
the "Class" property: the geometry is unchanged, the NDVI value and every
property other than "Class" are unchanged, and "Class" is set to the label
of the feature's NDVI value under the threshold ladder. -/
theorem classify_point_feature_frame (f g : Feature)
    (h : classify_point_feature f = some g) :
    g.geom = f.geom ∧
    getProp g "NDVI" = getProp f "NDVI" ∧
    (∀ k, k ≠ "Class" → getProp g k = getProp f k) ∧
    ∃ v, getProp f "NDVI" = some (.num v) ∧
      getProp g "Class" = some (.str (classify_point v)) := by
  rw [classify_point_feature] at h
  split at h
  case _ v hv =>
    obtain rfl : setProp f "Class" (.str (classify_point v)) = g :=
      Option.some.inj h
    refine ⟨rfl, ?_, ?_, v, hv, ?_⟩
    · exact getProp_setProp_ne f "Class" "NDVI" _ (by decide)
    · intro k hk
      exact getProp_setProp_ne f "Class" k _ hk
    · simp only [getProp, setProp]
      rw [List.find?_cons_of_pos _ (by simp)]
      rfl
  case _ =>
    exact absurd h (by simp)

/-- A concrete sampled feature at location 7 carrying NDVI 0.5. -/
def feat0 : Feature := ⟨7, [("NDVI", .num 0.5)]⟩

/-- The feature `feat0` after classification: "Class" set to "Moderate". -/
def feat0cls : Feature := setProp feat0 "Class" (.str "Moderate")

/-- C10 witness: the frame theorem applied to the concrete feature `feat0` —
classification keeps its geometry and its NDVI property. -/
theorem classify_point_feature_frame_witness :
    feat0cls.geom = feat0.geom ∧ getProp feat0cls "NDVI" = getProp feat0 "NDVI" :=
  have h := classify_point_feature_frame feat0 feat0cls
    (by norm_num [classify_point_feature, getProp, feat0, feat0cls, setProp,
      classify_point])
  ⟨h.1, h.2.1⟩

end NDVI
